import Mathlib

/-!
Verification development for the purple-air ETL pipeline
(`src/gcp_extract_load.py`): a shallow embedding of its data model and
operations, and theorems settling the specification's claims about them.

Python JSON dictionaries are embedded as association lists of
`String × JVal`; the semantics of a dictionary is given by `dlookup`,
which returns the value of the *last* binding of a key, so that list
concatenation models Python's `{**a, **b}` merge (later entries win),
matching dict-unpacking semantics on lookup.
-/

namespace PurpleAir

/-- A JSON scalar value as it appears in the API responses: the registry's
credential fields and feed-record values. -/
inductive JVal where
  | jnull
  | jint (n : Int)
  | jstr (s : String)
  deriving DecidableEq, Repr

/-- A Python dict embedded as an association list (insertion order kept). -/
abbrev PDict := List (String × JVal)

/-- Dictionary lookup: the value of the last binding of `k`, mirroring
Python dict semantics under `{**a, **b}`-style merges modelled by `++`. -/
def dlookup : PDict → String → Option JVal
  | [], _ => none
  | (k0, v) :: rest, k =>
    match dlookup rest k with
    | some v' => some v'
    | none => if k0 = k then some v else none

/-- The keys of a dict. -/
def dkeys (d : PDict) : List String := d.map Prod.fst

theorem dlookup_append (a b : PDict) (k : String) :
    dlookup (a ++ b) k =
      match dlookup b k with
      | some v => some v
      | none => dlookup a k := by
  induction a with
  | nil => cases h : dlookup b k <;> simp [h, dlookup]
  | cons hd tl ih =>
    obtain ⟨k0, v0⟩ := hd
    have step : dlookup (((k0, v0) :: tl) ++ b) k =
        match dlookup (tl ++ b) k with
        | some v' => some v'
        | none => if k0 = k then some v0 else none := rfl
    rw [step, ih]
    cases h : dlookup b k <;> cases h2 : dlookup tl k <;> simp [dlookup, h2]

theorem dlookup_eq_none_of_not_mem (d : PDict) (k : String)
    (h : k ∉ dkeys d) : dlookup d k = none := by
  induction d with
  | nil => rfl
  | cons hd tl ih =>
    obtain ⟨k0, v0⟩ := hd
    simp only [dkeys, List.map_cons, List.mem_cons] at h
    push_neg at h
    simp only [dlookup, ih (by simpa [dkeys] using h.2)]
    simp [h.1.symm]

/-- Boolean extensional-equality check for two dicts: their lookups agree
on every key occurring in either. -/
def dictEqb (d1 d2 : PDict) : Bool :=
  (dkeys d1 ++ dkeys d2).all fun k => decide (dlookup d1 k = dlookup d2 k)

theorem dictEqb_correct (d1 d2 : PDict) (h : dictEqb d1 d2 = true) :
    ∀ k, dlookup d1 k = dlookup d2 k := by
  intro k
  by_cases hk : k ∈ dkeys d1 ++ dkeys d2
  · have := List.all_eq_true.mp h k hk
    exact of_decide_eq_true this
  · rw [List.mem_append] at hk
    push_neg at hk
    rw [dlookup_eq_none_of_not_mem d1 k hk.1, dlookup_eq_none_of_not_mem d2 k hk.2]

/-- Errors a pipeline run can raise: an HTTP/request failure, a missing
dict key (Python `KeyError`), or a constructor invocation failure
(Python `TypeError` from a missing dataclass argument). -/
inductive PyErr where
  | typeError
  | keyError
  | httpError (msg : String)
  deriving DecidableEq, Repr

/-- The `ThingSpeak` dataclass of the source (lines 11–20): four
(id, key) pairs. The field annotations in the Python source (`int`/`str`)
are not enforced at construction time by dataclasses, so every field is
embedded as an arbitrary `JVal`. -/
structure ThingSpeak where
  primary_id_a : JVal
  primary_key_a : JVal
  primary_id_b : JVal
  primary_key_b : JVal
  secondary_id_a : JVal
  secondary_key_a : JVal
  secondary_id_b : JVal
  secondary_key_b : JVal
  deriving DecidableEq, Repr

/-- The parameter names of the `ThingSpeak` constructor, in declaration
order — the set `signature(self).parameters` used by `from_dict`. -/
def requiredKeys : List String :=
  ["primary_id_a", "primary_key_a", "primary_id_b", "primary_key_b",
   "secondary_id_a", "secondary_key_a", "secondary_id_b", "secondary_key_b"]

/-- `ThingSpeak.from_dict` (source lines 22–29): filters the input dict to
the constructor's parameter names and calls the constructor with those
keyword arguments. The dataclass generates no defaults, so the call
succeeds exactly when every one of the 8 parameters is present, binding
each field to the dict's value for that name; extraneous keys are dropped
by the filter and cannot reach the constructor. -/
def from_dict (d : PDict) : Option ThingSpeak := do
  let v1 ← dlookup d "primary_id_a"
  let v2 ← dlookup d "primary_key_a"
  let v3 ← dlookup d "primary_id_b"
  let v4 ← dlookup d "primary_key_b"
  let v5 ← dlookup d "secondary_id_a"
  let v6 ← dlookup d "secondary_key_a"
  let v7 ← dlookup d "secondary_id_b"
  let v8 ← dlookup d "secondary_key_b"
  pure ⟨v1, v2, v3, v4, v5, v6, v7, v8⟩

/-- C1: any registry response dict containing the 8 required credential
fields yields a `ThingSpeak` whose 8 fields are exactly the dict's values
for those names, and the result depends on nothing but the lookups of the
8 required names — every extra key has no effect. -/
theorem C1_from_dict_extracts_required_ignores_extras
    (d : PDict) (v1 v2 v3 v4 v5 v6 v7 v8 : JVal)
    (h1 : dlookup d "primary_id_a" = some v1)
    (h2 : dlookup d "primary_key_a" = some v2)
    (h3 : dlookup d "primary_id_b" = some v3)
    (h4 : dlookup d "primary_key_b" = some v4)
    (h5 : dlookup d "secondary_id_a" = some v5)
    (h6 : dlookup d "secondary_key_a" = some v6)
    (h7 : dlookup d "secondary_id_b" = some v7)
    (h8 : dlookup d "secondary_key_b" = some v8) :
    from_dict d = some ⟨v1, v2, v3, v4, v5, v6, v7, v8⟩ ∧
      ∀ d' : PDict, (∀ k ∈ requiredKeys, dlookup d' k = dlookup d k) →
        from_dict d' = from_dict d := by
  constructor
  · simp [from_dict, h1, h2, h3, h4, h5, h6, h7, h8]
  · intro d' hsame
    have e1 := hsame "primary_id_a" (by simp [requiredKeys])
    have e2 := hsame "primary_key_a" (by simp [requiredKeys])
    have e3 := hsame "primary_id_b" (by simp [requiredKeys])
    have e4 := hsame "primary_key_b" (by simp [requiredKeys])
    have e5 := hsame "secondary_id_a" (by simp [requiredKeys])
    have e6 := hsame "secondary_key_a" (by simp [requiredKeys])
    have e7 := hsame "secondary_id_b" (by simp [requiredKeys])
    have e8 := hsame "secondary_key_b" (by simp [requiredKeys])
    simp [from_dict, e1, e2, e3, e4, e5, e6, e7, e8]

/-- A registry response with the 8 required fields plus two extra keys. -/
def c1input : PDict :=
  [("primary_id_a", .jint 11), ("primary_key_a", .jstr "ka"),
   ("primary_id_b", .jint 12), ("primary_key_b", .jstr "kb"),
   ("secondary_id_a", .jint 21), ("secondary_key_a", .jstr "sa"),
   ("secondary_id_b", .jint 22), ("secondary_key_b", .jstr "sb"),
   ("name", .jstr "sensor"), ("latitude", .jint 47)]

theorem C1_witness :
    from_dict c1input =
      some ⟨.jint 11, .jstr "ka", .jint 12, .jstr "kb",
            .jint 21, .jstr "sa", .jint 22, .jstr "sb"⟩ :=
  (C1_from_dict_extracts_required_ignores_extras c1input
    (.jint 11) (.jstr "ka") (.jint 12) (.jstr "kb")
    (.jint 21) (.jstr "sa") (.jint 22) (.jstr "sb")
    rfl rfl rfl rfl rfl rfl rfl rfl).1

/-- A dict with all 8 required field names present but every value a
string — the id fields are not integers, a "wrong type" per the claim. -/
def c2bad : PDict :=
  [("primary_id_a", .jstr "oops"), ("primary_key_a", .jstr "oops"),
   ("primary_id_b", .jstr "oops"), ("primary_key_b", .jstr "oops"),
   ("secondary_id_a", .jstr "oops"), ("secondary_key_a", .jstr "oops"),
   ("secondary_id_b", .jstr "oops"), ("secondary_key_b", .jstr "oops")]

/-- C2 counterexample: the claim says an input with all 8 field names
present but wrongly-typed values (id not an integer) fails construction;
on the code, construction succeeds — dataclass annotations are not
enforced. -/
theorem C2_counterexample :
    from_dict c2bad =
      some ⟨.jstr "oops", .jstr "oops", .jstr "oops", .jstr "oops",
            .jstr "oops", .jstr "oops", .jstr "oops", .jstr "oops"⟩ := rfl

/-- C2 (amended): `from_dict` fails if and only if some required
credential field name is absent from the input; value types are never
validated. -/
theorem C2_from_dict_fails_iff_field_absent (d : PDict) :
    from_dict d = none ↔ ∃ k ∈ requiredKeys, dlookup d k = none := by
  rcases e1 : dlookup d "primary_id_a" with _ | v1
  · exact iff_of_true (by simp [from_dict, e1])
      ⟨"primary_id_a", by simp [requiredKeys], e1⟩
  rcases e2 : dlookup d "primary_key_a" with _ | v2
  · exact iff_of_true (by simp [from_dict, e1, e2])
      ⟨"primary_key_a", by simp [requiredKeys], e2⟩
  rcases e3 : dlookup d "primary_id_b" with _ | v3
  · exact iff_of_true (by simp [from_dict, e1, e2, e3])
      ⟨"primary_id_b", by simp [requiredKeys], e3⟩
  rcases e4 : dlookup d "primary_key_b" with _ | v4
  · exact iff_of_true (by simp [from_dict, e1, e2, e3, e4])
      ⟨"primary_key_b", by simp [requiredKeys], e4⟩
  rcases e5 : dlookup d "secondary_id_a" with _ | v5
  · exact iff_of_true (by simp [from_dict, e1, e2, e3, e4, e5])
      ⟨"secondary_id_a", by simp [requiredKeys], e5⟩
  rcases e6 : dlookup d "secondary_key_a" with _ | v6
  · exact iff_of_true (by simp [from_dict, e1, e2, e3, e4, e5, e6])
      ⟨"secondary_key_a", by simp [requiredKeys], e6⟩
  rcases e7 : dlookup d "secondary_id_b" with _ | v7
  · exact iff_of_true (by simp [from_dict, e1, e2, e3, e4, e5, e6, e7])
      ⟨"secondary_id_b", by simp [requiredKeys], e7⟩
  rcases e8 : dlookup d "secondary_key_b" with _ | v8
  · exact iff_of_true (by simp [from_dict, e1, e2, e3, e4, e5, e6, e7, e8])
      ⟨"secondary_key_b", by simp [requiredKeys], e8⟩
  · refine iff_of_false (by simp [from_dict, e1, e2, e3, e4, e5, e6, e7, e8]) ?_
    rintro ⟨k, hk, hnone⟩
    simp only [requiredKeys, List.mem_cons, List.not_mem_nil, or_false] at hk
    rcases hk with rfl | rfl | rfl | rfl | rfl | rfl | rfl | rfl <;>
      simp_all

/-- A parsed ThingSpeak channel-feed response body: a `channel` metadata
object and a `feeds` array of reading objects, as accessed by
`get_feed` via `response["channel"]` and `response["feeds"]`. -/
structure ChannelResp where
  channel : PDict
  feeds : List PDict
  deriving DecidableEq, Repr

/-- The `field_names` comprehension of `get_feed` (source line 55–57):
`{f"{k}_name": v for k, v in response["channel"].items() if k[:5] == "field"}`.
Keeps every channel key whose first five characters are `"field"`,
renaming it with the `_name` suffix. -/
def field_names (ch : PDict) : PDict :=
  ch.filterMap fun kv =>
    if kv.1.take 5 = "field" then some (kv.1 ++ "_name", kv.2) else none

/-- The `{**channel_name, **field_names, **feed}` merge of source line 59,
modelled by concatenation under last-binding-wins `dlookup` semantics. -/
def mergeRecord (channel_name fns feed : PDict) : PDict :=
  channel_name ++ fns ++ feed

/-- The pure transform inside `get_feed` (source lines 55–59) applied to a
parsed response: builds the field-name metadata, reads
`response["channel"]["name"]` (a missing `name` key raises `KeyError`),
and merges metadata into every element of `feeds`. -/
def get_feed_transform (resp : ChannelResp) : Except PyErr (List PDict) :=
  let fns := field_names resp.channel
  match dlookup resp.channel "name" with
  | none => .error .keyError
  | some nm => .ok (resp.feeds.map fun feed => mergeRecord [("name", nm)] fns feed)

/-- Lookup in a merged record resolves with feed-element precedence, then
field-name metadata, then the channel-name entry. -/
theorem dlookup_mergeRecord (channel_name fns feed : PDict) (k : String) :
    dlookup (mergeRecord channel_name fns feed) k =
      match dlookup feed k with
      | some v => some v
      | none =>
        match dlookup fns k with
        | some v => some v
        | none => dlookup channel_name k := by
  show dlookup ((channel_name ++ fns) ++ feed) k = _
  rw [dlookup_append]
  cases h : dlookup feed k
  · rw [dlookup_append]
  · rfl

/-- The concrete channel object of C4's example. -/
def c4channel : PDict := [("name", .jstr "X"), ("field1", .jstr "PM2.5")]

/-- The concrete feed element of C4's example. -/
def c4feed : PDict := [("entry_id", .jint 1), ("field1", .jstr "12")]

/-- The record C4 expects for its example. -/
def c4expected : PDict :=
  [("name", .jstr "X"), ("field1_name", .jstr "PM2.5"),
   ("entry_id", .jint 1), ("field1", .jstr "12")]

/-- C4: each produced FeedRecord is the merge of the channel-name mapping,
the field-name metadata and the feed element, feed keys winning on
collision; and on the example channel `{name: "X", field1: "PM2.5"}` with
feeds `[{entry_id: 1, field1: "12"}]` the single record produced equals
`{name: "X", field1_name: "PM2.5", entry_id: 1, field1: "12"}`
(as a dict, i.e. extensionally under lookup). -/
theorem C4_records_merge_with_feed_precedence
    (resp : ChannelResp) (nm : JVal)
    (h : dlookup resp.channel "name" = some nm) :
    (get_feed_transform resp =
      .ok (resp.feeds.map fun feed =>
        mergeRecord [("name", nm)] (field_names resp.channel) feed)) ∧
    (∀ feed k, dlookup (mergeRecord [("name", nm)] (field_names resp.channel) feed) k =
      match dlookup feed k with
      | some v => some v
      | none =>
        match dlookup (field_names resp.channel) k with
        | some v => some v
        | none => dlookup [("name", nm)] k) ∧
    (get_feed_transform ⟨c4channel, [c4feed]⟩ =
      .ok [mergeRecord [("name", .jstr "X")] (field_names c4channel) c4feed] ∧
     ∀ k, dlookup (mergeRecord [("name", .jstr "X")] (field_names c4channel) c4feed) k =
       dlookup c4expected k) := by
  refine ⟨by simp [get_feed_transform, h], fun feed k => dlookup_mergeRecord _ _ _ k, rfl, ?_⟩
  exact dictEqb_correct _ _ (by decide)

theorem C4_witness :
    get_feed_transform ⟨c4channel, [c4feed]⟩ =
      .ok [mergeRecord [("name", .jstr "X")] (field_names c4channel) c4feed] :=
  (C4_records_merge_with_feed_precedence ⟨c4channel, [c4feed]⟩ (.jstr "X") rfl).2.2.1

/-- A channel object holding the literal key `"field"` (no numeric
suffix). -/
def c5channel : PDict := [("name", .jstr "X"), ("field", .jstr "v")]

/-- C5 counterexample: the claim says a key such as the literal `"field"`
(no `<N>`) is not included in the field-name metadata; on the code the
prefix check `k[:5] == "field"` accepts it, so the metadata mapping built
from `c5channel` binds `"field_name"`. -/
theorem C5_counterexample :
    dlookup (field_names c5channel) "field_name" = some (.jstr "v") := rfl

/-- C5 (amended): the field-name metadata mapping contains exactly the
entries `(k ++ "_name", v)` for channel entries `(k, v)` whose first five
characters are `"field"` — this includes the literal key `"field"` and
keys with non-numeric suffixes, not only `field<N>` with numeric `N`. -/
theorem C5_field_names_prefix_check (ch : PDict) (k : String) (v : JVal) :
    (k, v) ∈ field_names ch ↔
      ∃ k0, (k0, v) ∈ ch ∧ k0.take 5 = "field" ∧ k = k0 ++ "_name" := by
  simp only [field_names, List.mem_filterMap]
  constructor
  · rintro ⟨⟨k0, v0⟩, hmem, hf⟩
    by_cases hp : k0.take 5 = "field"
    · rw [if_pos hp] at hf
      injection hf with hpair
      injection hpair with hk hv
      exact ⟨k0, hv ▸ hmem, hp, hk.symm⟩
    · simp [hp] at hf
  · rintro ⟨k0, hmem, hp, rfl⟩
    exact ⟨(k0, v), hmem, by simp [hp]⟩

/-- C10: for every channel response whose channel object has a `name`,
`get_feed` produces exactly one record per element of the `feeds` array,
in the array's order (the map over `feeds`), and an empty `feeds` array
yields the empty record sequence rather than an error. -/
theorem C10_one_record_per_feed_in_order
    (resp : ChannelResp) (nm : JVal)
    (h : dlookup resp.channel "name" = some nm) :
    get_feed_transform resp =
      .ok (resp.feeds.map fun feed =>
        mergeRecord [("name", nm)] (field_names resp.channel) feed) ∧
    (resp.feeds.map fun feed =>
        mergeRecord [("name", nm)] (field_names resp.channel) feed).length =
      resp.feeds.length ∧
    (resp.feeds = [] → get_feed_transform resp = .ok []) := by
  refine ⟨by simp [get_feed_transform, h], by simp, fun he => ?_⟩
  simp [get_feed_transform, h, he]

theorem C10_witness :
    get_feed_transform ⟨c4channel, []⟩ = .ok [] :=
  (C10_one_record_per_feed_in_order ⟨c4channel, []⟩ (.jstr "X") rfl).2.2 rfl

/-- The `@retry(Exception, tries=3, delay=1, backoff=5)` decorator
(source lines 47 and 69): runs the decorated body, and on an exception
re-invokes it, up to `tries` attempts in total, finally re-raising the
last error. Attempts are numbered by `i`; the body's outcome at each
attempt is given by `f`. Delays between attempts have no observable
effect on results and are not modelled. The decorator is only ever used
with `tries = 3`; the `tries = 0` pattern below is inert. -/
def retryRun {α : Type} (f : Nat → Except PyErr α) : Nat → Nat → Except PyErr α
  | i, 0 => f i
  | i, 1 => f i
  | i, n + 2 =>
    match f i with
    | .ok a => .ok a
    | .error _ => retryRun f (i + 1) (n + 1)

/-- C6: under the retry policy with bound 3, a fetch whose underlying
request fails on the first two attempts and succeeds on the third returns
the successful result, and one that fails on all three attempts raises
the final error — no silent fallback. -/
theorem C6_retry_three_attempts {α : Type} (f : Nat → Except PyErr α) :
    (∀ e0 e1 a, f 0 = .error e0 → f 1 = .error e1 → f 2 = .ok a →
      retryRun f 0 3 = .ok a) ∧
    (∀ e0 e1 e2, f 0 = .error e0 → f 1 = .error e1 → f 2 = .error e2 →
      retryRun f 0 3 = .error e2) := by
  constructor
  · intro e0 e1 a h0 h1 h2
    simp [retryRun, h0, h1, h2]
  · intro e0 e1 e2 h0 h1 h2
    simp [retryRun, h0, h1, h2]

/-- Attempt outcomes that fail twice and then succeed with the value 7. -/
def c6attempts : Nat → Except PyErr Nat := fun i =>
  if i < 2 then .error (.httpError "boom") else .ok 7

theorem C6_witness : retryRun c6attempts 0 3 = .ok 7 :=
  (C6_retry_three_attempts c6attempts).1 (.httpError "boom") (.httpError "boom") 7
    rfl rfl rfl

/-- The debug message logged at the top of `get_feed` (source line 50). -/
def fetchingMsg : String := "Fetching feeds from ThingSpeak API"

/-- The debug message logged after a successful fetch (source line 61). -/
def successMsg : String := "Successfully retreived feeds from ThingSpeak"

/-- One attempt of the `get_feed` body (source lines 48–62): the
"Fetching" log is emitted, then the HTTP request and JSON parse happen
(outcome given by `fetch` at the attempt index), then the transform runs,
and only on success is the "Successfully retreived" log emitted. Both
logs sit inside the body that the `@retry` decorator re-invokes. -/
def get_feed_body (fetch : Nat → Except PyErr ChannelResp) (i : Nat) :
    List String × Except PyErr (List PDict) :=
  match fetch i with
  | .error e => ([fetchingMsg], .error e)
  | .ok resp =>
    match get_feed_transform resp with
    | .error e => ([fetchingMsg], .error e)
    | .ok recs => ([fetchingMsg, successMsg], .ok recs)

/-- The retry decorator applied to a log-emitting body: logs of every
attempt made are concatenated in order. Mirrors `retryRun`. -/
def retryLog {α : Type} (body : Nat → List String × Except PyErr α) :
    Nat → Nat → List String × Except PyErr α
  | i, 0 => body i
  | i, 1 => body i
  | i, n + 2 =>
    match body i with
    | (ls, .ok a) => (ls, .ok a)
    | (ls, .error _) =>
      let r := retryLog body (i + 1) (n + 1)
      (ls ++ r.1, r.2)

/-- `get_feed` as decorated (source line 47): the logged body under
`@retry` with `tries = 3`, returning the emitted log sequence alongside
the result. -/
def get_feed (fetch : Nat → Except PyErr ChannelResp) :
    List String × Except PyErr (List PDict) :=
  retryLog (get_feed_body fetch) 0 3

/-- Underlying request outcomes failing twice, then succeeding with a
response whose feeds array is empty. -/
def c8fetch : Nat → Except PyErr ChannelResp := fun i =>
  if i < 2 then .error (.httpError "boom") else .ok ⟨c4channel, []⟩

/-- C8 counterexample: the claim says exactly one before-fetch debug
entry is emitted per logical fetch regardless of retries; on the code the
"Fetching" log sits inside the retried body, so a fetch that needs three
attempts emits it three times. -/
theorem C8_counterexample :
    ((get_feed c8fetch).1.count fetchingMsg = 3) ∧
      ¬ ((get_feed c8fetch).1.count fetchingMsg = 1) := by
  constructor
  · rfl
  · intro h
    rw [show (get_feed c8fetch).1.count fetchingMsg = 3 from rfl] at h
    omega

/-- C8 (amended): the before-fetch debug entry is emitted once per retry
attempt — once when the first attempt succeeds, three times when the
first two attempts fail — while the after-success entry is emitted
exactly once, on the successful attempt. -/
theorem C8_log_per_attempt
    (fetch : Nat → Except PyErr ChannelResp) (resp : ChannelResp)
    (recs : List PDict) (ht : get_feed_transform resp = .ok recs) :
    (fetch 0 = .ok resp → (get_feed fetch).1 = [fetchingMsg, successMsg]) ∧
    (∀ e0 e1, fetch 0 = .error e0 → fetch 1 = .error e1 → fetch 2 = .ok resp →
      (get_feed fetch).1 = [fetchingMsg, fetchingMsg, fetchingMsg, successMsg]) := by
  constructor
  · intro h0
    simp [get_feed, retryLog, get_feed_body, h0, ht]
  · intro e0 e1 h0 h1 h2
    simp [get_feed, retryLog, get_feed_body, h0, h1, h2, ht]

theorem C8_witness :
    (get_feed c8fetch).1 = [fetchingMsg, fetchingMsg, fetchingMsg, successMsg] :=
  (C8_log_per_attempt c8fetch ⟨c4channel, []⟩ [] rfl).2 (.httpError "boom")
    (.httpError "boom") rfl rfl rfl

/-- Python `str()` as used in the f-string interpolation of `urls`. -/
def pyStr : JVal → String
  | .jnull => "None"
  | .jint n => toString n
  | .jstr s => s

/-- The feed URL built for one (id, key) pair (source lines 41–45). -/
def channelUrl (id key : JVal) : String :=
  "https://api.thingspeak.com/channels/" ++ pyStr id ++ "/feeds.json?api_key=" ++ pyStr key

/-- `ThingSpeak.id_key_pairs` (source lines 31–38): the four (id, key)
pairs in the fixed order primary-A, secondary-A, primary-B, secondary-B. -/
def id_key_pairs (ts : ThingSpeak) : List (JVal × JVal) :=
  [(ts.primary_id_a, ts.primary_key_a),
   (ts.secondary_id_a, ts.secondary_key_a),
   (ts.primary_id_b, ts.primary_key_b),
   (ts.secondary_id_b, ts.secondary_key_b)]

/-- `ThingSpeak.urls` (source lines 40–45): one feed URL per pair, in
pair order. -/
def urls (ts : ThingSpeak) : List String :=
  (id_key_pairs ts).map fun p => channelUrl p.1 p.2

/-- The `feeds` list comprehension (source line 66) evaluated left to
right over the URLs, where `getF` gives each `get_feed(url)` outcome:
the per-URL record lists are concatenated in URL order, and the first
exception aborts the whole comprehension. -/
def fetchAll (getF : String → Except PyErr (List PDict)) :
    List String → Except PyErr (List PDict)
  | [] => .ok []
  | u :: rest =>
    match getF u with
    | .error e => .error e
    | .ok l =>
      match fetchAll getF rest with
      | .error e => .error e
      | .ok ls => .ok (l ++ ls)

/-- `ThingSpeak.feeds` (source lines 64–66). -/
def feeds (getF : String → Except PyErr (List PDict)) (ts : ThingSpeak) :
    Except PyErr (List PDict) :=
  fetchAll getF (urls ts)

/-- `extract` (source lines 82–86): resolve the registry response (the
outcome of `get_keys_from_purple`, given as `reg`), build the credential
set with `from_dict` (a missing required field raises `TypeError`), and
return its `feeds`. -/
def extract (reg : Except PyErr PDict)
    (getF : String → Except PyErr (List PDict)) : Except PyErr (List PDict) :=
  match reg with
  | .error e => .error e
  | .ok resp =>
    match from_dict resp with
    | none => .error .typeError
    | some ts => feeds getF ts

/-- `main` (source lines 103–107): extract, then load, then return
`"Success"`. The second component records the batches passed to `load`,
so that "no load attempted" and "load attempted once" are observable. -/
def main (reg : Except PyErr PDict)
    (getF : String → Except PyErr (List PDict))
    (ld : List PDict → Except PyErr Unit) :
    Except PyErr String × List (List PDict) :=
  match extract reg getF with
  | .error e => (.error e, [])
  | .ok batch =>
    match ld batch with
    | .error e => (.error e, [batch])
    | .ok _ => (.ok "Success", [batch])

/-- C3: when the registry resolves to a credential set whose four channel
fetches return `l1`, `l2`, `l3`, `l4`, `extract` returns exactly their
concatenation in the fixed pair order primary-A, secondary-A, primary-B,
secondary-B, hence `l1.length + l2.length + l3.length + l4.length`
records. -/
theorem C3_extract_concatenates_in_pair_order
    (reg : Except PyErr PDict) (resp : PDict) (ts : ThingSpeak)
    (getF : String → Except PyErr (List PDict)) (l1 l2 l3 l4 : List PDict)
    (hreg : reg = .ok resp) (hfd : from_dict resp = some ts)
    (h1 : getF (channelUrl ts.primary_id_a ts.primary_key_a) = .ok l1)
    (h2 : getF (channelUrl ts.secondary_id_a ts.secondary_key_a) = .ok l2)
    (h3 : getF (channelUrl ts.primary_id_b ts.primary_key_b) = .ok l3)
    (h4 : getF (channelUrl ts.secondary_id_b ts.secondary_key_b) = .ok l4) :
    extract reg getF = .ok (l1 ++ (l2 ++ (l3 ++ l4))) ∧
      (l1 ++ (l2 ++ (l3 ++ l4))).length =
        l1.length + l2.length + l3.length + l4.length := by
  constructor
  · simp [extract, hreg, hfd, feeds, urls, id_key_pairs, fetchAll, h1, h2, h3, h4]
  · simp [List.length_append]
    omega

/-- A registry response resolving to the concrete credential set
`⟨1, "a", 2, "b", 3, "c", 4, "d"⟩`. -/
def c3resp : PDict :=
  [("primary_id_a", .jint 1), ("primary_key_a", .jstr "a"),
   ("primary_id_b", .jint 2), ("primary_key_b", .jstr "b"),
   ("secondary_id_a", .jint 3), ("secondary_key_a", .jstr "c"),
   ("secondary_id_b", .jint 4), ("secondary_key_b", .jstr "d")]

/-- A channel fetch outcome returning one fixed record for every URL. -/
def c3getF : String → Except PyErr (List PDict) := fun _ =>
  .ok [[("entry_id", .jint 1)]]

theorem C3_witness :
    extract (.ok c3resp) c3getF =
      .ok [[("entry_id", .jint 1)], [("entry_id", .jint 1)],
           [("entry_id", .jint 1)], [("entry_id", .jint 1)]] :=
  (C3_extract_concatenates_in_pair_order (.ok c3resp) c3resp
    ⟨.jint 1, .jstr "a", .jint 2, .jstr "b", .jint 3, .jstr "c", .jint 4, .jstr "d"⟩
    c3getF [[("entry_id", .jint 1)]] [[("entry_id", .jint 1)]]
    [[("entry_id", .jint 1)]] [[("entry_id", .jint 1)]]
    rfl rfl rfl rfl rfl rfl).1

/-- C7: if credential resolution fails (the registry fetch raises, or the
response is missing a required field so construction raises `TypeError`),
or any one of the four channel fetches fails (all earlier ones having
succeeded), then `extract` raises that error — no partial record
sequence — and `main` propagates it with no load attempted. -/
theorem C7_failure_aborts_extract_no_partial_no_load
    (reg : Except PyErr PDict) (getF : String → Except PyErr (List PDict))
    (ld : List PDict → Except PyErr Unit) (e : PyErr)
    (h : reg = .error e ∨
      (∃ resp, reg = .ok resp ∧ from_dict resp = none ∧ e = .typeError) ∨
      (∃ resp ts, reg = .ok resp ∧ from_dict resp = some ts ∧
        (getF (channelUrl ts.primary_id_a ts.primary_key_a) = .error e ∨
         (∃ l1, getF (channelUrl ts.primary_id_a ts.primary_key_a) = .ok l1 ∧
           getF (channelUrl ts.secondary_id_a ts.secondary_key_a) = .error e) ∨
         (∃ l1 l2, getF (channelUrl ts.primary_id_a ts.primary_key_a) = .ok l1 ∧
           getF (channelUrl ts.secondary_id_a ts.secondary_key_a) = .ok l2 ∧
           getF (channelUrl ts.primary_id_b ts.primary_key_b) = .error e) ∨
         (∃ l1 l2 l3, getF (channelUrl ts.primary_id_a ts.primary_key_a) = .ok l1 ∧
           getF (channelUrl ts.secondary_id_a ts.secondary_key_a) = .ok l2 ∧
           getF (channelUrl ts.primary_id_b ts.primary_key_b) = .ok l3 ∧
           getF (channelUrl ts.secondary_id_b ts.secondary_key_b) = .error e)))) :
    extract reg getF = .error e ∧ main reg getF ld = (.error e, []) := by
  have hx : extract reg getF = .error e := by
    rcases h with hreg | ⟨resp, hreg, hfd, he⟩ | ⟨resp, ts, hreg, hfd, hfail⟩
    · simp [extract, hreg]
    · simp [extract, hreg, hfd, he]
    · rcases hfail with h1 | ⟨l1, h1, h2⟩ | ⟨l1, l2, h1, h2, h3⟩ | ⟨l1, l2, l3, h1, h2, h3, h4⟩
      · simp [extract, hreg, hfd, feeds, urls, id_key_pairs, fetchAll, h1]
      · simp [extract, hreg, hfd, feeds, urls, id_key_pairs, fetchAll, h1, h2]
      · simp [extract, hreg, hfd, feeds, urls, id_key_pairs, fetchAll, h1, h2, h3]
      · simp [extract, hreg, hfd, feeds, urls, id_key_pairs, fetchAll, h1, h2, h3, h4]
  exact ⟨hx, by simp [main, hx]⟩

theorem C7_witness :
    extract (.error (.httpError "registry down")) (fun _ => .ok []) =
        .error (.httpError "registry down") ∧
      main (.error (.httpError "registry down")) (fun _ => .ok [])
        (fun _ => .ok ()) = (.error (.httpError "registry down"), []) :=
  C7_failure_aborts_extract_no_partial_no_load (.error (.httpError "registry down"))
    (fun _ => .ok []) (fun _ => .ok ()) (.httpError "registry down") (Or.inl rfl)

/-- C9: `main` calls `extract` and then `load` on the extracted batch; if
both succeed it returns the fixed `"Success"` indicator having loaded the
batch exactly once, if `extract` fails it propagates that error with no
load, and if `load` fails it propagates that error — no retry at this
level. -/
theorem C9_main_extract_then_load
    (reg : Except PyErr PDict) (getF : String → Except PyErr (List PDict))
    (ld : List PDict → Except PyErr Unit) :
    (∀ b, extract reg getF = .ok b → ld b = .ok () →
      main reg getF ld = (.ok "Success", [b])) ∧
    (∀ e, extract reg getF = .error e → main reg getF ld = (.error e, [])) ∧
    (∀ b e, extract reg getF = .ok b → ld b = .error e →
      main reg getF ld = (.error e, [b])) := by
  refine ⟨fun b hx hl => ?_, fun e hx => ?_, fun b e hx hl => ?_⟩
  · simp [main, hx, hl]
  · simp [main, hx]
  · simp [main, hx, hl]

theorem C9_witness :
    main (.ok c3resp) c3getF (fun _ => .ok ()) =
      (.ok "Success",
       [[[("entry_id", .jint 1)], [("entry_id", .jint 1)],
         [("entry_id", .jint 1)], [("entry_id", .jint 1)]]]) :=
  (C9_main_extract_then_load (.ok c3resp) c3getF (fun _ => .ok ())).1
    [[("entry_id", .jint 1)], [("entry_id", .jint 1)],
     [("entry_id", .jint 1)], [("entry_id", .jint 1)]] rfl rfl

end PurpleAir
